import Mathlib

/-!
Verification development for the FEVM Lost & Found Matching Engine
(`src/Server.js`).  The source file concatenates three revisions of the
server; the definitions below embed the functions the specification
claims are about, at the line ranges the claims cite: the current
revision of the reconciliation run (`runMatchingEngine`, lines 608-694),
the oracle call (`getGeminiMatch`, lines 547-599), the prompt builder
(`createMatchingPrompt`, lines 511-545), the manual trigger endpoint
(lines 493-506), the trigger wiring (lines 432-440, 706), and the fault
recovery supervisor (`resetProvider` / `uncaughtException` handler,
lines 301-334, together with `initializeProvider`, lines 404-430).

Machine integers: ledger ids are uint256 read through `Number(...)`;
they are modelled as `Nat` (no arithmetic is performed on them, so no
overflow point exists).  The oracle response travels as JSON text; the
platform pieces (`fetch`, `JSON.parse`, `Number`) are collaborators and
are modelled by an explicit wire type and total Lean functions on a
JSON value type.
-/

namespace DlF

/-- A parsed JSON value, as produced by the platform `JSON.parse`.
Numbers are modelled as integers: the ids in play are ledger ids and
the code performs no fractional arithmetic on them. -/
inductive JsonVal where
  | jnull : JsonVal
  | jbool : Bool → JsonVal
  | jnum : Int → JsonVal
  | jstr : String → JsonVal
  | jarr : List JsonVal → JsonVal
  | jobj : List (String × JsonVal) → JsonVal

/-- JavaScript truthiness of a JSON value (`null`, `false`, `0` and the
empty string are falsy; arrays and objects are always truthy).  Used to
embed the `parsedJson.match && ...` test at `Server.js:588`. -/
def jsTruthy : JsonVal → Bool
  | JsonVal.jnull => false
  | JsonVal.jbool b => b
  | JsonVal.jnum n => decide (n ≠ 0)
  | JsonVal.jstr s => decide (s ≠ "")
  | JsonVal.jarr _ => true
  | JsonVal.jobj _ => true

/-- JavaScript property access `v.k` on a JSON value: a lookup when `v`
is an object, `undefined` (modelled as `none`) otherwise. -/
def getField : JsonVal → String → Option JsonVal
  | JsonVal.jobj fields, k => fields.lookup k
  | _, _ => none

/-- The strict comparison `v === "high"` at `Server.js:588`
(`undefined` and non-string values compare unequal). -/
def strictEqHigh : Option JsonVal → Bool
  | some (JsonVal.jstr s) => decide (s = "high")
  | _ => false

/-- The platform coercion `Number(v)` applied to a JSON value
(`Server.js:590-591`); `none` stands for `NaN`.  Strings are modelled
for integer literals (the oracle schema declares the ids as `NUMBER`,
so no code path in the claims feeds a non-integer string through the
coercion); array and object coercion is modelled as `NaN`. -/
def jsNumberVal : JsonVal → Option Int
  | JsonVal.jnull => some 0
  | JsonVal.jbool b => some (if b then 1 else 0)
  | JsonVal.jnum n => some n
  | JsonVal.jstr s => if s.trim = "" then some 0 else s.trim.toInt?
  | JsonVal.jarr _ => none
  | JsonVal.jobj _ => none

/-- `Number(v)` where `v` may be `undefined` (`Number(undefined)` is
`NaN`). -/
def jsNumber : Option JsonVal → Option Int
  | none => none
  | some v => jsNumberVal v

/-- What the transport layer hands the oracle-response code in
`getGeminiMatch` (`Server.js:577-587`): either the `fetch` or
`response.json()` Promise rejects (`transportError`, landing in the
`catch` at line 595), or the optional-chained extraction of
`result.candidates?.[0]?.content?.parts?.[0]?.text` produces no usable
text (`noText`, so the `if (jsonText)` guard fails), or a text is
present and `JSON.parse` either fails (`text none`, landing in the
`catch`) or yields a JSON value (`text (some j)`). -/
inductive OracleWire where
  | transportError : OracleWire
  | noText : OracleWire
  | text : Option JsonVal → OracleWire

/-- The options object passed to `fetch` at `Server.js:577-581`: the
source supplies only `method`, `headers` and `body`.  `timeoutMs`
records an axios-style timeout option and `signal` an `AbortController`
signal; the source provides neither, so both are `none`. -/
structure FetchOptions where
  method : String
  headers : List (String × String)
  hasBody : Bool
  timeoutMs : Option Nat
  signal : Option Unit
deriving DecidableEq

/-- The literal options of the Gemini `fetch` call (`Server.js:577-581`):
`method: POST`, a content-type header, a JSON body, and no timeout or
abort signal of any kind. -/
def geminiFetchOptions : FetchOptions :=
  { method := "POST"
    headers := [("Content-Type", "application/json")]
    hasBody := true
    timeoutMs := none
    signal := none }

/-- `getGeminiMatch` (`Server.js:547-599`) as a function of the prompt
and of the wire outcome.  `if (!prompt) return null`; any transport or
parse failure is caught and yields `null`; otherwise the response is
accepted exactly when `parsedJson.match` is truthy and
`parsedJson.match.confidence === "high"`, in which case the pair
`(Number(lostId), Number(foundId))` is returned (inner `none` = `NaN`). -/
def getGeminiMatch (prompt : Option String) (w : OracleWire) :
    Option (Option Int × Option Int) :=
  match prompt with
  | none => none
  | some _ =>
    match w with
    | OracleWire.transportError => none
    | OracleWire.noText => none
    | OracleWire.text none => none
    | OracleWire.text (some parsedJson) =>
      match getField parsedJson "match" with
      | none => none
      | some m =>
        if jsTruthy m && strictEqHigh (getField m "confidence") then
          some (jsNumber (getField m "lostId"), jsNumber (getField m "foundId"))
        else
          none

/-- The six-tuple returned by `contract.getItem(id)`
(`Server.js:396-397`): `(id, reporter, isLost, title, description,
ipfsCid)`. -/
structure ItemData where
  id : Nat
  reporter : String
  isLost : Bool
  title : String
  description : String
  ipfsCid : String
deriving DecidableEq

/-- The object pushed onto `allItems` at `Server.js:638-645`: the same
six fields under the names used by the run. -/
structure ItemRec where
  itemId : Nat
  reporter : String
  isLost : Bool
  title : String
  description : String
  ipfsCid : String
deriving DecidableEq

/-- The field-by-field copy performed by the `allItems.push({...})`
at `Server.js:638-645`. -/
def itemRecOf (d : ItemData) : ItemRec :=
  { itemId := d.id
    reporter := d.reporter
    isLost := d.isLost
    title := d.title
    description := d.description
    ipfsCid := d.ipfsCid }

/-- The read interface of the ledger contract as the run sees it
(`getItemCount`, `getItem`, `matchedItem` in the ABI at
`Server.js:395-399`).  Reads are modelled as total: the claims under
proof do not concern read failures. -/
structure Ledger where
  getItemCount : Nat
  getItem : Nat → ItemData
  matchedItem : Nat → Nat

/-- The id sequence visited by the loop
`for (let id = 1; id < totalItems; id++)` at `Server.js:630`. -/
def snapshotIds (L : Ledger) : List Nat :=
  List.range' 1 (L.getItemCount - 1)

/-- One iteration of the collection loop (`Server.js:630-649`): fetch
the item and its match-link, and append it to the accumulator exactly
when `matchedId === 0`. -/
def collectStep (L : Ledger) (acc : List ItemRec) (id : Nat) : List ItemRec :=
  if L.matchedItem id = 0 then acc ++ [itemRecOf (L.getItem id)] else acc

/-- The `allItems` list produced by the collection loop
(`Server.js:629-649`). -/
def collectItems (L : Ledger) : List ItemRec :=
  (snapshotIds L).foldl (collectStep L) []

/-- The unmatched-lost partition of the snapshot: the collected items
with `isLost` set, exactly the `lostItems` filter of
`createMatchingPrompt` (`Server.js:512`). -/
def unmatchedLost (L : Ledger) : List ItemRec :=
  (collectItems L).filter fun it => it.isLost

/-- The unmatched-found partition of the snapshot (`Server.js:519`). -/
def unmatchedFound (L : Ledger) : List ItemRec :=
  (collectItems L).filter fun it => !it.isLost

/-- One mapped entry of the `lostItems` / `foundItems` arrays built by
`createMatchingPrompt` (`Server.js:512-524`): id, title, description
and a type tag. -/
structure PromptItem where
  id : Nat
  title : String
  description : String
  type : String

/-- One line of the item listing:
the template literal at `Server.js:534` and `539`. -/
def promptLine (it : PromptItem) : String :=
  "ID: " ++ toString it.id ++ ", Title: \"" ++ it.title ++
    "\", Description: \"" ++ it.description ++ "\"\n"

/-- `createMatchingPrompt` (`Server.js:511-545`): partition the items
into LOST and FOUND, return `null` when either side is empty, and
otherwise assemble the full prompt text. -/
def createMatchingPrompt (items : List ItemRec) : Option String :=
  let lostItems := (items.filter fun it => it.isLost).map fun it =>
    PromptItem.mk it.itemId it.title it.description "LOST"
  let foundItems := (items.filter fun it => !it.isLost).map fun it =>
    PromptItem.mk it.itemId it.title it.description "FOUND"
  if lostItems.length = 0 ∨ foundItems.length = 0 then
    none
  else
    let p1 := "You are a lost and found matching service. Analyze the LOST items against the FOUND items.\n\n"
      ++ "Your task is to find the best possible match between ONE LOST item and ONE FOUND item based on title, description, and similarity. ONLY match items that are highly likely to be the same object.\n\n"
      ++ "LOST Items:\n"
    let p2 := lostItems.foldl (fun acc it => acc ++ promptLine it) p1
    let p3 := p2 ++ "\nFOUND Items:\n"
    let p4 := foundItems.foldl (fun acc it => acc ++ promptLine it) p3
    some (p4 ++ "\nOutput ONLY the result in the exact JSON format: \x7b\"match\": \x7b\"lostId\": [ID_NUMBER], \"foundId\": [ID_NUMBER], \"confidence\": \"[high/medium/low]\"\x7d\x7d or \x7b\"match\": null\x7d if no match is found.")

/-- Outcome of `await currentContract.recordMatch(lostId, foundId)` at
`Server.js:672`: the submission either returns a transaction object
(whose hash the run reports) or rejects — in particular when the
ledger contract reverts because either id already carries a non-zero
match-link. -/
inductive SubmitOutcome where
  | accepted : String → SubmitOutcome
  | rejected : String → SubmitOutcome
deriving DecidableEq

/-- Outcome of the detached `tx.wait()` confirmation Promise at
`Server.js:675-679`. -/
inductive ConfirmOutcome where
  | confirmed : ConfirmOutcome
  | notConfirmed : String → ConfirmOutcome
deriving DecidableEq

/-- The log entry emitted by the `tx.wait().then(...).catch(...)`
handlers (`Server.js:675-679`): `log(SUCCESS: ...)` on confirmation,
`console.error(ERROR: ...)` otherwise. -/
inductive PostSubmitLog where
  | success : PostSubmitLog
  | failure : PostSubmitLog
deriving DecidableEq

/-- `Server.js:675-679`: which post-submission log entry a confirmation
outcome produces. -/
def logOf : ConfirmOutcome → PostSubmitLog
  | ConfirmOutcome.confirmed => PostSubmitLog.success
  | ConfirmOutcome.notConfirmed _ => PostSubmitLog.failure

/-- The environment one reconciliation run executes against: the
ledger reads, the oracle wire outcome, and the outcomes of the
submission and of its detached confirmation.  The per-run reload of
`credential.env` and the fresh wallet/contract pair
(`Server.js:611-616`) rebind the same ledger and are not separately
observable here. -/
structure RunEnv where
  ledger : Ledger
  oracle : OracleWire
  submit : SubmitOutcome
  confirm : ConfirmOutcome

/-- The distinct terminal states of `runMatchingEngine`
(`Server.js:608-694`), one per exit point: the four `return null`
exits (distinguished by the log line each prints), the
`return tx.hash` exit, and the `catch`-and-rethrow exit. -/
inductive RunOutcome where
  | noItems : RunOutcome
  | notEnoughUnmatched : RunOutcome
  | noPrompt : RunOutcome
  | noMatch : RunOutcome
  | committed : String → RunOutcome
  | thrown : String → RunOutcome
deriving DecidableEq

/-- Observable trace of one run: its outcome, how many times the item
count was read, which ids the loop fetched (each id incurs a `getItem`
and a `matchedItem` read), the collected snapshot, whether the oracle
fetch was issued, every `recordMatch` invocation with its arguments,
and the post-submission confirmation log entry, if any. -/
structure RunResult where
  outcome : RunOutcome
  countReads : Nat
  fetchedIds : List Nat
  collected : List ItemRec
  oracleInvoked : Bool
  submissions : List (Option Int × Option Int)
  postSubmitLog : Option PostSubmitLog
deriving DecidableEq

/-- The tail of `runMatchingEngine` from step 4 on (`Server.js:665-687`):
call the oracle; on `null` exit with the no-match log; otherwise submit
`recordMatch(match.lostId, match.foundId)` — a rejected submission is
caught at line 689 and re-thrown (line 692), an accepted one returns
`tx.hash` after detaching the `tx.wait()` confirmation handlers. -/
def runTail (env : RunEnv) (ids : List Nat) (allItems : List ItemRec)
    (prompt : String) : RunResult :=
  match getGeminiMatch (some prompt) env.oracle with
  | none =>
    { outcome := RunOutcome.noMatch, countReads := 1, fetchedIds := ids
      collected := allItems, oracleInvoked := true, submissions := []
      postSubmitLog := none }
  | some (lid, fid) =>
    match env.submit with
    | SubmitOutcome.rejected err =>
      { outcome := RunOutcome.thrown err, countReads := 1, fetchedIds := ids
        collected := allItems, oracleInvoked := true
        submissions := [(lid, fid)], postSubmitLog := none }
    | SubmitOutcome.accepted txHash =>
      { outcome := RunOutcome.committed txHash, countReads := 1
        fetchedIds := ids, collected := allItems, oracleInvoked := true
        submissions := [(lid, fid)], postSubmitLog := some (logOf env.confirm) }

/-- `runMatchingEngine` (`Server.js:608-694`): read the item count once;
exit if `totalItems <= 1`; collect the unmatched items over ids
`1..totalItems-1`; exit if fewer than two remain; build the prompt and
exit if it is `null`; then run the oracle/submission tail. -/
def runMatchingEngine (env : RunEnv) : RunResult :=
  if env.ledger.getItemCount ≤ 1 then
    { outcome := RunOutcome.noItems, countReads := 1, fetchedIds := []
      collected := [], oracleInvoked := false, submissions := []
      postSubmitLog := none }
  else
    let ids := snapshotIds env.ledger
    let allItems := collectItems env.ledger
    if allItems.length < 2 then
      { outcome := RunOutcome.notEnoughUnmatched, countReads := 1
        fetchedIds := ids, collected := allItems, oracleInvoked := false
        submissions := [], postSubmitLog := none }
    else
      match createMatchingPrompt allItems with
      | none =>
        { outcome := RunOutcome.noPrompt, countReads := 1, fetchedIds := ids
          collected := allItems, oracleInvoked := false, submissions := []
          postSubmitLog := none }
      | some prompt => runTail env ids allItems prompt

/-- What `runMatchingEngine` hands back to its caller: `null` or a
transaction hash on the `return` exits, a raised error on the
rethrowing `catch` exit (`Server.js:692`). -/
def RunResult.returnValue (r : RunResult) : Except String (Option String) :=
  match r.outcome with
  | RunOutcome.thrown e => Except.error e
  | RunOutcome.committed h => Except.ok (some h)
  | _ => Except.ok none

/-- The `POST /api/run-engine` handler (`Server.js:493-506`) as a
status-code/message pair: 200 with the submitted-transaction message,
200 with the no-match message, or 500 when the awaited run throws. -/
def runEngineEndpoint (env : RunEnv) : Nat × String :=
  match (runMatchingEngine env).returnValue with
  | Except.ok (some txHash) =>
    (200, "Matching engine run completed. Match transaction submitted: " ++ txHash)
  | Except.ok none =>
    (200, "Matching engine run completed. No new match found.")
  | Except.error _ =>
    (500, "Matching engine run failed.")

/-- The three trigger sources wired to the engine: the `ItemReported`
subscription handler (`Server.js:435-439`), the five-minute
`setInterval` (`Server.js:706`), and the `POST /api/run-engine`
endpoint (`Server.js:496`). -/
inductive Trigger where
  | subscription : Trigger
  | timer : Trigger
  | manual : Trigger
deriving DecidableEq

/-- An event of the trigger interleaving: a trigger fires, or an
in-flight run reaches a terminal state. -/
inductive SchedEvent where
  | trig : Trigger → SchedEvent
  | finish : SchedEvent
deriving DecidableEq

/-- The process state the trigger wiring actually consults: the number
of `runMatchingEngine` invocations currently in flight.  The source
keeps no run flag, lock or queue anywhere (`runMatchingEngine` itself,
`Server.js:608-694`, reads no such state either). -/
structure EngineSched where
  inFlight : Nat
deriving DecidableEq

/-- One step of the trigger wiring.  Each of the three handlers calls
`runMatchingEngine()` unconditionally — the subscription callback at
`Server.js:438`, the interval at 706 and the endpoint at 496 perform no
check before the call — so a trigger always starts one more in-flight
run; `finish` retires one. -/
def schedStep (s : EngineSched) : SchedEvent → EngineSched
  | SchedEvent.trig _ => { inFlight := s.inFlight + 1 }
  | SchedEvent.finish => { inFlight := s.inFlight - 1 }

/-- The in-flight count after a sequence of events, starting from the
idle process. -/
def schedRun (evts : List SchedEvent) : EngineSched :=
  evts.foldl schedStep { inFlight := 0 }

/-- The fixed cooldown of the supervisor: the `setTimeout` delay of
10000 ms at `Server.js:318-321`. -/
def resetCooldownMs : Nat := 10000

/-- Process-wide state the fault recovery supervisor manipulates
(`Server.js:301-334` and `404-430`): the `isResetting` re-entrancy
flag, the nullable `provider` / `wallet` / `contract` triple, whether
the `ItemReported` listener is attached, the pending reset timer with
its delay, a generation counter for reconstructed triples, and the
number of reconciliation runs the supervisor has triggered. -/
structure SupervisorState where
  isResetting : Bool
  hasProvider : Bool
  hasWallet : Bool
  hasContract : Bool
  listenersAttached : Bool
  cooldownPending : Option Nat
  generation : Nat
  runsTriggered : Nat
deriving DecidableEq

/-- `attachContractListeners` (`Server.js:432-440`): a no-op when
`contract` is null, otherwise subscribes the `ItemReported` handler. -/
def attachContractListeners (s : SupervisorState) : SupervisorState :=
  if s.hasContract then { s with listenersAttached := true } else s

/-- `initializeProvider` (`Server.js:404-430`): construct a fresh
provider, wallet and contract, re-attach the subscription, and trigger
one reconciliation run. -/
def initializeProvider (s : SupervisorState) : SupervisorState :=
  let s1 := { s with
    hasProvider := true
    hasWallet := true
    hasContract := true
    generation := s.generation + 1 }
  let s2 := attachContractListeners s1
  { s2 with runsTriggered := s2.runsTriggered + 1 }

/-- `resetProvider` (`Server.js:302-322`): a no-op while a reset is
already pending (`if (isResetting) return`); otherwise set the flag,
remove the contract listeners (when a contract exists), null the
provider/wallet/contract triple, and schedule reinitialization after
the 10-second cooldown. -/
def resetProvider (s : SupervisorState) : SupervisorState :=
  if s.isResetting then s
  else
    { s with
      isResetting := true
      listenersAttached := if s.hasContract then false else s.listenersAttached
      hasProvider := false
      hasWallet := false
      hasContract := false
      cooldownPending := some resetCooldownMs }

/-- The `setTimeout` callback firing after the cooldown
(`Server.js:318-321`): clear the re-entrancy flag, then run
`initializeProvider`. -/
def cooldownElapses (s : SupervisorState) : SupervisorState :=
  initializeProvider { s with isResetting := false, cooldownPending := none }

/-- The `process.on(uncaughtException)` handler (`Server.js:324-334`):
reset the provider exactly when the caught error has
`code === ECONNRESET`, otherwise only log. -/
def onUncaughtException (errCode : String) (s : SupervisorState) :
    SupervisorState :=
  if errCode = "ECONNRESET" then resetProvider s else s

theorem run_noItems (env : RunEnv) (h : env.ledger.getItemCount ≤ 1) :
    runMatchingEngine env =
      { outcome := RunOutcome.noItems, countReads := 1, fetchedIds := []
        collected := [], oracleInvoked := false, submissions := []
        postSubmitLog := none } := by
  unfold runMatchingEngine
  simp [h]

theorem run_notEnough (env : RunEnv) (h : ¬ env.ledger.getItemCount ≤ 1)
    (h2 : (collectItems env.ledger).length < 2) :
    runMatchingEngine env =
      { outcome := RunOutcome.notEnoughUnmatched, countReads := 1
        fetchedIds := snapshotIds env.ledger
        collected := collectItems env.ledger, oracleInvoked := false
        submissions := [], postSubmitLog := none } := by
  unfold runMatchingEngine
  simp [h, h2]

theorem run_noPrompt (env : RunEnv) (h : ¬ env.ledger.getItemCount ≤ 1)
    (h2 : ¬ (collectItems env.ledger).length < 2)
    (h3 : createMatchingPrompt (collectItems env.ledger) = none) :
    runMatchingEngine env =
      { outcome := RunOutcome.noPrompt, countReads := 1
        fetchedIds := snapshotIds env.ledger
        collected := collectItems env.ledger, oracleInvoked := false
        submissions := [], postSubmitLog := none } := by
  unfold runMatchingEngine
  simp [h, h2, h3]

theorem run_prompt (env : RunEnv) (h : ¬ env.ledger.getItemCount ≤ 1)
    (h2 : ¬ (collectItems env.ledger).length < 2) (p : String)
    (h3 : createMatchingPrompt (collectItems env.ledger) = some p) :
    runMatchingEngine env =
      runTail env (snapshotIds env.ledger) (collectItems env.ledger) p := by
  unfold runMatchingEngine
  simp [h, h2, h3]

theorem runTail_none (env : RunEnv) (ids : List Nat)
    (allItems : List ItemRec) (p : String)
    (hm : getGeminiMatch (some p) env.oracle = none) :
    runTail env ids allItems p =
      { outcome := RunOutcome.noMatch, countReads := 1, fetchedIds := ids
        collected := allItems, oracleInvoked := true, submissions := []
        postSubmitLog := none } := by
  unfold runTail
  simp [hm]

theorem runTail_accepted (env : RunEnv) (ids : List Nat)
    (allItems : List ItemRec) (p : String) (lid fid : Option Int)
    (txh : String)
    (hm : getGeminiMatch (some p) env.oracle = some (lid, fid))
    (hs : env.submit = SubmitOutcome.accepted txh) :
    runTail env ids allItems p =
      { outcome := RunOutcome.committed txh, countReads := 1
        fetchedIds := ids, collected := allItems, oracleInvoked := true
        submissions := [(lid, fid)]
        postSubmitLog := some (logOf env.confirm) } := by
  unfold runTail
  simp [hm, hs]

theorem runTail_rejected (env : RunEnv) (ids : List Nat)
    (allItems : List ItemRec) (p : String) (lid fid : Option Int)
    (e : String)
    (hm : getGeminiMatch (some p) env.oracle = some (lid, fid))
    (hs : env.submit = SubmitOutcome.rejected e) :
    runTail env ids allItems p =
      { outcome := RunOutcome.thrown e, countReads := 1, fetchedIds := ids
        collected := allItems, oracleInvoked := true
        submissions := [(lid, fid)], postSubmitLog := none } := by
  unfold runTail
  simp [hm, hs]

theorem foldl_collectStep (L : Ledger) (ids : List Nat)
    (acc : List ItemRec) :
    ids.foldl (collectStep L) acc =
      acc ++ (ids.filter (fun id => decide (L.matchedItem id = 0))).map
        (fun id => itemRecOf (L.getItem id)) := by
  induction ids generalizing acc with
  | nil => simp
  | cons x xs ih =>
    by_cases hx : L.matchedItem x = 0
    · simp [collectStep, hx, ih]
    · simp [collectStep, hx, ih]

theorem collectItems_eq (L : Ledger) :
    collectItems L =
      ((snapshotIds L).filter (fun id => decide (L.matchedItem id = 0))).map
        (fun id => itemRecOf (L.getItem id)) := by
  unfold collectItems
  simpa using foldl_collectStep L (snapshotIds L) []

theorem snapshotIds_nil_of_le_one (L : Ledger) (h : L.getItemCount ≤ 1) :
    snapshotIds L = [] := by
  unfold snapshotIds
  have h0 : L.getItemCount - 1 = 0 := Nat.sub_eq_zero_of_le h
  simp [h0]

theorem collectItems_nil_of_le_one (L : Ledger) (h : L.getItemCount ≤ 1) :
    collectItems L = [] := by
  unfold collectItems
  simp [snapshotIds_nil_of_le_one L h]

theorem two_le_length_of_partitions (items : List ItemRec)
    (h1 : items.filter (fun it => it.isLost) ≠ [])
    (h2 : items.filter (fun it => !it.isLost) ≠ []) :
    2 ≤ items.length := by
  cases items with
  | nil => simp at h1
  | cons x t =>
    cases t with
    | nil =>
      cases hx : x.isLost with
      | true => simp [List.filter, hx] at h2
      | false => simp [List.filter, hx] at h1
    | cons y r =>
      simp only [List.length_cons]
      omega

theorem createMatchingPrompt_none_left (items : List ItemRec)
    (h : items.filter (fun it => it.isLost) = []) :
    createMatchingPrompt items = none := by
  unfold createMatchingPrompt
  rw [if_pos]
  exact Or.inl (by simp [h])

theorem createMatchingPrompt_none_right (items : List ItemRec)
    (h : items.filter (fun it => !it.isLost) = []) :
    createMatchingPrompt items = none := by
  unfold createMatchingPrompt
  rw [if_pos]
  exact Or.inr (by simp [h])

theorem createMatchingPrompt_ne_none (items : List ItemRec)
    (h1 : items.filter (fun it => it.isLost) ≠ [])
    (h2 : items.filter (fun it => !it.isLost) ≠ []) :
    createMatchingPrompt items ≠ none := by
  unfold createMatchingPrompt
  rw [if_neg]
  · simp
  · push_neg
    constructor <;> simp [List.length_eq_zero, h1, h2]

/-- Under a snapshot with at least one unmatched lost and one unmatched
found item, the run reaches the oracle/submission tail with the prompt
built from the snapshot. -/
theorem run_reaches_tail (env : RunEnv)
    (h1 : unmatchedLost env.ledger ≠ [])
    (h2 : unmatchedFound env.ledger ≠ []) :
    ∃ p, createMatchingPrompt (collectItems env.ledger) = some p ∧
      runMatchingEngine env =
        runTail env (snapshotIds env.ledger) (collectItems env.ledger) p := by
  have h1f : (collectItems env.ledger).filter (fun it => it.isLost) ≠ [] := h1
  have h2f : (collectItems env.ledger).filter (fun it => !it.isLost) ≠ [] := h2
  have hc : ¬ env.ledger.getItemCount ≤ 1 := by
    intro hle
    rw [collectItems_nil_of_le_one env.ledger hle] at h1f
    simp at h1f
  have hlen : ¬ (collectItems env.ledger).length < 2 := by
    have := two_le_length_of_partitions (collectItems env.ledger) h1f h2f
    omega
  have hp := createMatchingPrompt_ne_none (collectItems env.ledger) h1f h2f
  rcases Option.ne_none_iff_exists'.mp hp with ⟨p, hpe⟩
  exact ⟨p, hpe, run_prompt env hc hlen p hpe⟩

/-- A lost-item fixture (id 1). -/
def itemLost1 : ItemData :=
  { id := 1, reporter := "0xReporterA", isLost := true, title := "Red Wallet"
    description := "A red leather wallet", ipfsCid := "QmCid1" }

/-- A found-item fixture (id 2). -/
def itemFound2 : ItemData :=
  { id := 2, reporter := "0xReporterB", isLost := false, title := "Red Wallet"
    description := "Found a red wallet", ipfsCid := "QmCid2" }

/-- A second lost-item fixture (id 2). -/
def itemLost2 : ItemData :=
  { id := 2, reporter := "0xReporterB", isLost := true, title := "Black Bag"
    description := "A black bag", ipfsCid := "QmCid3" }

/-- The all-zero slot returned for out-of-range reads. -/
def emptySlot : ItemData :=
  { id := 0, reporter := "", isLost := true, title := "", description := ""
    ipfsCid := "" }

/-- A ledger holding one unmatched lost and one unmatched found item
(total count 3: sentinel slot plus ids 1 and 2). -/
def ledgerTwo : Ledger :=
  { getItemCount := 3
    getItem := fun id =>
      if id = 1 then itemLost1 else if id = 2 then itemFound2 else emptySlot
    matchedItem := fun _ => 0 }

/-- A ledger holding only the sentinel slot (count 1). -/
def ledgerEmpty : Ledger :=
  { getItemCount := 1, getItem := fun _ => emptySlot
    matchedItem := fun _ => 0 }

/-- A ledger whose two unmatched items are both lost items. -/
def ledgerLostOnly : Ledger :=
  { getItemCount := 3
    getItem := fun id =>
      if id = 1 then itemLost1 else if id = 2 then itemLost2 else emptySlot
    matchedItem := fun _ => 0 }

/-- An oracle response that parses as
`{match: {lostId: a, foundId: b, confidence: "high"}}`. -/
def highWire (a b : Int) : OracleWire :=
  OracleWire.text (some (JsonVal.jobj
    [("match", JsonVal.jobj
      [("lostId", JsonVal.jnum a), ("foundId", JsonVal.jnum b),
       ("confidence", JsonVal.jstr "high")])]))

/-- An oracle response that parses as
`{match: {lostId: 1, foundId: 2, confidence: "medium"}}`. -/
def mediumWire : OracleWire :=
  OracleWire.text (some (JsonVal.jobj
    [("match", JsonVal.jobj
      [("lostId", JsonVal.jnum 1), ("foundId", JsonVal.jnum 2),
       ("confidence", JsonVal.jstr "medium")])]))

theorem getGeminiMatch_highWire (pr : String) (a b : Int) :
    getGeminiMatch (some pr) (highWire a b) = some (some a, some b) := rfl

/-- C9: with a total item count of at most 1 the run exits at the
`totalItems <= 1` check: outcome `no-items`, no per-item fetches, no
oracle call, no `recordMatch` submission. -/
theorem count_le_one_run_no_items (env : RunEnv)
    (h : env.ledger.getItemCount ≤ 1) :
    (runMatchingEngine env).outcome = RunOutcome.noItems ∧
    (runMatchingEngine env).fetchedIds = [] ∧
    (runMatchingEngine env).oracleInvoked = false ∧
    (runMatchingEngine env).submissions = [] ∧
    (runMatchingEngine env).returnValue = Except.ok none := by
  rw [run_noItems env h]
  exact ⟨rfl, rfl, rfl, rfl, rfl⟩

/-- C9 witness: the sentinel-only ledger (count 1) with an
oracle/submission environment that would otherwise accept. -/
def envSentinel : RunEnv :=
  { ledger := ledgerEmpty, oracle := highWire 1 2
    submit := SubmitOutcome.accepted "0xhash", confirm := ConfirmOutcome.confirmed }

theorem count_le_one_run_no_items_witness :
    (runMatchingEngine envSentinel).outcome = RunOutcome.noItems ∧
    (runMatchingEngine envSentinel).fetchedIds = [] ∧
    (runMatchingEngine envSentinel).oracleInvoked = false ∧
    (runMatchingEngine envSentinel).submissions = [] ∧
    (runMatchingEngine envSentinel).returnValue = Except.ok none :=
  count_le_one_run_no_items envSentinel (by decide)

theorem run_fields (env : RunEnv) :
    (runMatchingEngine env).countReads = 1 ∧
    (runMatchingEngine env).fetchedIds = snapshotIds env.ledger ∧
    (runMatchingEngine env).collected = collectItems env.ledger := by
  by_cases hc : env.ledger.getItemCount ≤ 1
  · rw [run_noItems env hc]
    have h := snapshotIds_nil_of_le_one env.ledger hc
    have h2 := collectItems_nil_of_le_one env.ledger hc
    exact ⟨rfl, h.symm, h2.symm⟩
  · by_cases hl : (collectItems env.ledger).length < 2
    · rw [run_notEnough env hc hl]
      exact ⟨rfl, rfl, rfl⟩
    · cases hp : createMatchingPrompt (collectItems env.ledger) with
      | none =>
        rw [run_noPrompt env hc hl hp]
        exact ⟨rfl, rfl, rfl⟩
      | some p =>
        rw [run_prompt env hc hl p hp]
        cases hg : getGeminiMatch (some p) env.oracle with
        | none =>
          rw [runTail_none env _ _ p hg]
          exact ⟨rfl, rfl, rfl⟩
        | some lf =>
          obtain ⟨lid, fid⟩ := lf
          cases hs : env.submit with
          | accepted txh =>
            rw [runTail_accepted env _ _ p lid fid txh hg hs]
            exact ⟨rfl, rfl, rfl⟩
          | rejected e =>
            rw [runTail_rejected env _ _ p lid fid e hg hs]
            exact ⟨rfl, rfl, rfl⟩

/-- C6: every run reads the item count exactly once, its per-item
fetches are exactly the ids `1..count-1` in strictly ascending order,
and the collected snapshot holds, in that order, precisely the per-id
records whose match-link read is zero. -/
theorem snapshot_collection_shape (env : RunEnv) :
    (runMatchingEngine env).countReads = 1 ∧
    (runMatchingEngine env).fetchedIds =
      List.range' 1 (env.ledger.getItemCount - 1) ∧
    List.Pairwise (· < ·) (runMatchingEngine env).fetchedIds ∧
    (runMatchingEngine env).collected =
      ((List.range' 1 (env.ledger.getItemCount - 1)).filter
          (fun id => decide (env.ledger.matchedItem id = 0))).map
        (fun id => itemRecOf (env.ledger.getItem id)) := by
  obtain ⟨h1, h2, h3⟩ := run_fields env
  refine ⟨h1, h2, ?_, ?_⟩
  · rw [h2]
    exact List.pairwise_lt_range' 1 _
  · rw [h3, collectItems_eq]
    rfl

/-- C3: whenever the snapshot's unmatched-lost or unmatched-found
partition is empty, the oracle fetch is never issued, no ledger write
is attempted, and the run returns `null` through one of its benign
early exits (`no-items`, not-enough-items, or the null-prompt exit). -/
theorem empty_partition_skips_oracle (env : RunEnv)
    (h : unmatchedLost env.ledger = [] ∨ unmatchedFound env.ledger = []) :
    (runMatchingEngine env).oracleInvoked = false ∧
    (runMatchingEngine env).submissions = [] ∧
    (runMatchingEngine env).returnValue = Except.ok none ∧
    ((runMatchingEngine env).outcome = RunOutcome.noItems ∨
     (runMatchingEngine env).outcome = RunOutcome.notEnoughUnmatched ∨
     (runMatchingEngine env).outcome = RunOutcome.noPrompt) := by
  by_cases hc : env.ledger.getItemCount ≤ 1
  · rw [run_noItems env hc]
    exact ⟨rfl, rfl, rfl, Or.inl rfl⟩
  · by_cases hl : (collectItems env.ledger).length < 2
    · rw [run_notEnough env hc hl]
      exact ⟨rfl, rfl, rfl, Or.inr (Or.inl rfl)⟩
    · have hnone : createMatchingPrompt (collectItems env.ledger) = none := by
        rcases h with h | h
        · exact createMatchingPrompt_none_left _ h
        · exact createMatchingPrompt_none_right _ h
      rw [run_noPrompt env hc hl hnone]
      exact ⟨rfl, rfl, rfl, Or.inr (Or.inr rfl)⟩

/-- C3 witness environment: a ledger whose two unmatched items are
both lost (empty unmatched-found partition), with an oracle response
and submission environment that would otherwise accept. -/
def envLostOnly : RunEnv :=
  { ledger := ledgerLostOnly, oracle := highWire 1 2
    submit := SubmitOutcome.accepted "0xhash", confirm := ConfirmOutcome.confirmed }

theorem empty_partition_skips_oracle_witness :
    unmatchedFound ledgerLostOnly = [] ∧
    (runMatchingEngine envLostOnly).oracleInvoked = false ∧
    (runMatchingEngine envLostOnly).submissions = [] ∧
    (runMatchingEngine envLostOnly).returnValue = Except.ok none := by
  have h := empty_partition_skips_oracle envLostOnly (Or.inr (by decide))
  exact ⟨by decide, h.1, h.2.1, h.2.2.1⟩

theorem strictEqHigh_iff (o : Option JsonVal) :
    strictEqHigh o = true ↔ o = some (JsonVal.jstr "high") := by
  cases o with
  | none => simp [strictEqHigh]
  | some v =>
    cases v <;> simp [strictEqHigh]

/-- C2: the oracle result is promoted (a candidate pair is returned and
a commit attempted) if and only if the wire carried parseable JSON
whose `match` field is an object bearing `confidence = "high"`; in
every other case — another confidence, a missing or null `match`,
malformed JSON, missing response text, or a transport error — the
proposer yields `none`, and a run whose oracle wire yields `none` makes
no `recordMatch` submission and commits nothing. -/
theorem acceptance_policy (p : String) (w : OracleWire) (env : RunEnv) :
    ((getGeminiMatch (some p) w).isSome = true ↔
      ∃ j fields, w = OracleWire.text (some j) ∧
        getField j "match" = some (JsonVal.jobj fields) ∧
        fields.lookup "confidence" = some (JsonVal.jstr "high")) ∧
    ((∀ pr, getGeminiMatch (some pr) env.oracle = none) →
      (runMatchingEngine env).submissions = [] ∧
      ∀ txh, (runMatchingEngine env).outcome ≠ RunOutcome.committed txh) := by
  constructor
  · constructor
    · intro hsome
      match w with
      | OracleWire.transportError => simp [getGeminiMatch] at hsome
      | OracleWire.noText => simp [getGeminiMatch] at hsome
      | OracleWire.text none => simp [getGeminiMatch] at hsome
      | OracleWire.text (some j) =>
        cases hm : getField j "match" with
        | none => simp [getGeminiMatch, hm] at hsome
        | some m =>
          by_cases hcond :
              (jsTruthy m && strictEqHigh (getField m "confidence")) = true
          · have hhigh : getField m "confidence" = some (JsonVal.jstr "high") :=
              (strictEqHigh_iff _).mp (Bool.and_elim_right hcond)
            cases m with
            | jobj fields => exact ⟨j, fields, rfl, hm, hhigh⟩
            | jnull => simp [getField] at hhigh
            | jbool b => simp [getField] at hhigh
            | jnum n => simp [getField] at hhigh
            | jstr s => simp [getField] at hhigh
            | jarr xs => simp [getField] at hhigh
          · simp [getGeminiMatch, hm, hcond] at hsome
    · rintro ⟨j, fields, rfl, hm, hconf⟩
      have hh : strictEqHigh (getField (JsonVal.jobj fields) "confidence") = true := by
        rw [strictEqHigh_iff]
        simpa [getField] using hconf
      simp [getGeminiMatch, hm, jsTruthy, hh]
  · intro hnone
    by_cases hc : env.ledger.getItemCount ≤ 1
    · rw [run_noItems env hc]
      exact ⟨rfl, by intro txh h; cases h⟩
    · by_cases hl : (collectItems env.ledger).length < 2
      · rw [run_notEnough env hc hl]
        exact ⟨rfl, by intro txh h; cases h⟩
      · cases hp : createMatchingPrompt (collectItems env.ledger) with
        | none =>
          rw [run_noPrompt env hc hl hp]
          exact ⟨rfl, by intro txh h; cases h⟩
        | some pr =>
          rw [run_prompt env hc hl pr hp, runTail_none env _ _ pr (hnone pr)]
          exact ⟨rfl, by intro txh h; cases h⟩

/-- C2 witness environment: a well-formed response with confidence
`"medium"` over a ledger that would otherwise reach a commit. -/
def envMedium : RunEnv :=
  { ledger := ledgerTwo, oracle := mediumWire
    submit := SubmitOutcome.accepted "0xhash", confirm := ConfirmOutcome.confirmed }

theorem acceptance_policy_witness :
    getGeminiMatch (some "prompt") mediumWire = none ∧
    (runMatchingEngine envMedium).submissions = [] := by
  have h := acceptance_policy "prompt" mediumWire envMedium
  exact ⟨rfl, (h.2 (fun pr => rfl)).1⟩

/-- C10: whenever the run reaches the oracle and the response carries
`confidence = "high"` with numeric ids `a` and `b`, the run invokes
`recordMatch(a, b)` with exactly those ids — for arbitrary `a` and `b`,
with no requirement that `a` lies in the unmatched-lost partition, that
`b` lies in the unmatched-found partition, that the two differ, or that
either id was ever fetched from the ledger. -/
theorem verbatim_submission (env : RunEnv) (a b : Int)
    (h1 : unmatchedLost env.ledger ≠ [])
    (h2 : unmatchedFound env.ledger ≠ [])
    (hw : env.oracle = highWire a b) :
    (runMatchingEngine env).submissions = [(some a, some b)] := by
  rcases run_reaches_tail env h1 h2 with ⟨p, hp, hrun⟩
  have hg : getGeminiMatch (some p) env.oracle = some (some a, some b) := by
    rw [hw]
    exact getGeminiMatch_highWire p a b
  rw [hrun]
  cases hs : env.submit with
  | accepted txh => rw [runTail_accepted env _ _ p _ _ txh hg hs]
  | rejected e => rw [runTail_rejected env _ _ p _ _ e hg hs]

/-- C10 witness environment: the two-item ledger with an oracle
response naming id 999 on both sides. -/
def envBogusIds : RunEnv :=
  { ledger := ledgerTwo, oracle := highWire 999 999
    submit := SubmitOutcome.accepted "0xhash", confirm := ConfirmOutcome.confirmed }

theorem verbatim_submission_witness :
    (∀ id ∈ snapshotIds ledgerTwo, id ≠ 999) ∧
    (runMatchingEngine envBogusIds).submissions = [(some 999, some 999)] :=
  ⟨by decide, verbatim_submission envBogusIds 999 999 (by decide) (by decide) rfl⟩

/-- C7: once the submission is accepted, the run's result — outcome,
return value, the endpoint's response, and the single `recordMatch`
call — is the same whatever the detached confirmation later does (the
completion signal does not block on `tx.wait()`); the confirmation
handler logs success exactly on confirmation and an error otherwise,
and in either case the pair is submitted exactly once (no automatic
retry). -/
theorem async_confirmation (env : RunEnv) (lid fid : Option Int)
    (txh : String)
    (h1 : unmatchedLost env.ledger ≠ [])
    (h2 : unmatchedFound env.ledger ≠ [])
    (hm : ∀ pr, getGeminiMatch (some pr) env.oracle = some (lid, fid))
    (hs : env.submit = SubmitOutcome.accepted txh) :
    (∀ c, (runMatchingEngine { env with confirm := c }).outcome =
      RunOutcome.committed txh) ∧
    (∀ c, (runMatchingEngine { env with confirm := c }).returnValue =
      Except.ok (some txh)) ∧
    (∀ c, runEngineEndpoint { env with confirm := c } =
      (200, "Matching engine run completed. Match transaction submitted: " ++ txh)) ∧
    (∀ c, (runMatchingEngine { env with confirm := c }).submissions =
      [(lid, fid)]) ∧
    (env.confirm = ConfirmOutcome.confirmed →
      (runMatchingEngine env).postSubmitLog = some PostSubmitLog.success) ∧
    (∀ e, env.confirm = ConfirmOutcome.notConfirmed e →
      (runMatchingEngine env).postSubmitLog = some PostSubmitLog.failure) := by
  have key : ∀ c, runMatchingEngine { env with confirm := c } =
      { outcome := RunOutcome.committed txh, countReads := 1
        fetchedIds := snapshotIds env.ledger
        collected := collectItems env.ledger, oracleInvoked := true
        submissions := [(lid, fid)], postSubmitLog := some (logOf c) } := by
    intro c
    rcases run_reaches_tail { env with confirm := c } h1 h2 with ⟨p, _, hrun⟩
    rw [hrun, runTail_accepted { env with confirm := c } _ _ p lid fid txh (hm p) hs]
  have keyE : runMatchingEngine env =
      { outcome := RunOutcome.committed txh, countReads := 1
        fetchedIds := snapshotIds env.ledger
        collected := collectItems env.ledger, oracleInvoked := true
        submissions := [(lid, fid)]
        postSubmitLog := some (logOf env.confirm) } := key env.confirm
  refine ⟨fun c => by rw [key c], fun c => by rw [key c]; rfl,
    fun c => by rw [runEngineEndpoint, key c]; rfl,
    fun c => by rw [key c], ?_, ?_⟩
  · intro hcc
    rw [keyE, hcc]
    rfl
  · intro e hcc
    rw [keyE, hcc]
    rfl

/-- C7 witness environment: the two-item ledger, an accepting oracle
response, an accepted submission, and a confirmation that fails. -/
def envUnconfirmed : RunEnv :=
  { ledger := ledgerTwo, oracle := highWire 1 2
    submit := SubmitOutcome.accepted "0xabc"
    confirm := ConfirmOutcome.notConfirmed "timeout" }

theorem async_confirmation_witness :
    (runMatchingEngine envUnconfirmed).outcome = RunOutcome.committed "0xabc" ∧
    (runMatchingEngine envUnconfirmed).postSubmitLog = some PostSubmitLog.failure ∧
    (runMatchingEngine envUnconfirmed).submissions = [(some 1, some 2)] ∧
    runEngineEndpoint envUnconfirmed =
      (200, "Matching engine run completed. Match transaction submitted: 0xabc") := by
  have h := async_confirmation envUnconfirmed (some 1) (some 2) "0xabc"
    (by decide) (by decide) (fun pr => rfl) rfl
  exact ⟨h.1 envUnconfirmed.confirm, h.2.2.2.2.2 "timeout" rfl,
    h.2.2.2.1 envUnconfirmed.confirm, h.2.2.1 envUnconfirmed.confirm⟩

/-- C1 counterexample: the claimed single-flight invariant — at most
one run in flight under every trigger interleaving — fails at the
concrete interleaving in which a timer tick arrives while the run
started by a subscription event is still in flight: both runs are then
in flight, so the second trigger was admitted, not rejected. -/
theorem run_guard_counterexample :
    (schedRun [SchedEvent.trig Trigger.subscription,
               SchedEvent.trig Trigger.timer]).inFlight = 2 ∧
    ¬ (schedRun [SchedEvent.trig Trigger.subscription,
                 SchedEvent.trig Trigger.timer]).inFlight ≤ 1 := by
  decide

/-- C1 (amended): the code has no run guard.  Every trigger — from any
source and regardless of how many runs are already in flight — starts
one more `runMatchingEngine` invocation unconditionally; in particular
the subscription-then-timer interleaving leaves two runs in flight
concurrently. -/
theorem no_run_guard (t : Trigger) (s : EngineSched) :
    (schedStep s (SchedEvent.trig t)).inFlight = s.inFlight + 1 ∧
    (schedRun [SchedEvent.trig Trigger.subscription,
               SchedEvent.trig Trigger.timer]).inFlight = 2 :=
  ⟨rfl, rfl⟩

/-- C4 counterexample: the Gemini `fetch` call is issued with no
timeout option and no abort signal — the explicit abort/cutoff the
claim asserts does not exist in the invocation. -/
theorem oracle_timeout_counterexample :
    ¬ (geminiFetchOptions.timeoutMs.isSome = true ∨
       geminiFetchOptions.signal.isSome = true) := by
  decide

/-- C4 (amended): the oracle invocation carries no explicit timeout or
abort signal; on a transport failure the proposer returns `none` and
the run degrades to the benign no-match exit — it is not failed. -/
theorem oracle_no_timeout_degrades (env : RunEnv)
    (h1 : unmatchedLost env.ledger ≠ [])
    (h2 : unmatchedFound env.ledger ≠ [])
    (hw : env.oracle = OracleWire.transportError) :
    geminiFetchOptions.timeoutMs = none ∧
    geminiFetchOptions.signal = none ∧
    (∀ pr, getGeminiMatch (some pr) OracleWire.transportError = none) ∧
    (runMatchingEngine env).outcome = RunOutcome.noMatch ∧
    (runMatchingEngine env).returnValue = Except.ok none ∧
    (runMatchingEngine env).oracleInvoked = true ∧
    (runMatchingEngine env).submissions = [] := by
  rcases run_reaches_tail env h1 h2 with ⟨p, _, hrun⟩
  have hg : getGeminiMatch (some p) env.oracle = none := by rw [hw]; rfl
  rw [hrun, runTail_none env _ _ p hg]
  exact ⟨rfl, rfl, fun pr => rfl, rfl, rfl, rfl, rfl⟩

/-- C4 witness environment: the two-item ledger with a transport-level
oracle failure. -/
def envTransportFail : RunEnv :=
  { ledger := ledgerTwo, oracle := OracleWire.transportError
    submit := SubmitOutcome.accepted "0xhash", confirm := ConfirmOutcome.confirmed }

theorem oracle_no_timeout_degrades_witness :
    (runMatchingEngine envTransportFail).outcome = RunOutcome.noMatch ∧
    (runMatchingEngine envTransportFail).returnValue = Except.ok none ∧
    (runMatchingEngine envTransportFail).oracleInvoked = true := by
  have h := oracle_no_timeout_degrades envTransportFail
    (by decide) (by decide) rfl
  exact ⟨h.2.2.2.1, h.2.2.2.2.1, h.2.2.2.2.2.1⟩

/-- C5 counterexample environment: the two-item ledger, an accepted
high-confidence pair, and a ledger that rejects the `recordMatch`
submission. -/
def envRejected : RunEnv :=
  { ledger := ledgerTwo, oracle := highWire 1 2
    submit := SubmitOutcome.rejected "execution reverted"
    confirm := ConfirmOutcome.confirmed }

/-- C5 counterexample: when the ledger rejects the `recordMatch`
submission, the run does not complete benignly — the error is caught
and re-thrown to the caller, and the manual-trigger endpoint answers
500 rather than a 200 success. -/
theorem commit_rejection_counterexample :
    (runMatchingEngine envRejected).outcome =
      RunOutcome.thrown "execution reverted" ∧
    (runMatchingEngine envRejected).returnValue =
      Except.error "execution reverted" ∧
    runEngineEndpoint envRejected = (500, "Matching engine run failed.") ∧
    (runEngineEndpoint envRejected).1 ≠ 200 := by
  refine ⟨rfl, rfl, rfl, by decide⟩

/-- C5 (amended): a `recordMatch` rejection raises to the run's caller:
the run's `catch` block re-throws the error, so the run terminates with
a thrown error (the pair having been submitted once) and the
`POST /api/run-engine` caller receives a 500 failure response rather
than a benign outcome. -/
theorem commit_rejection_rethrows (env : RunEnv) (lid fid : Option Int)
    (e : String)
    (h1 : unmatchedLost env.ledger ≠ [])
    (h2 : unmatchedFound env.ledger ≠ [])
    (hm : ∀ pr, getGeminiMatch (some pr) env.oracle = some (lid, fid))
    (hs : env.submit = SubmitOutcome.rejected e) :
    (runMatchingEngine env).outcome = RunOutcome.thrown e ∧
    (runMatchingEngine env).returnValue = Except.error e ∧
    runEngineEndpoint env = (500, "Matching engine run failed.") ∧
    (runMatchingEngine env).submissions = [(lid, fid)] := by
  rcases run_reaches_tail env h1 h2 with ⟨p, _, hrun⟩
  have hfull := runTail_rejected env (snapshotIds env.ledger)
    (collectItems env.ledger) p lid fid e (hm p) hs
  rw [runEngineEndpoint, hrun, hfull]
  exact ⟨rfl, rfl, rfl, rfl⟩

theorem commit_rejection_rethrows_witness :
    (runMatchingEngine envRejected).returnValue =
      Except.error "execution reverted" ∧
    runEngineEndpoint envRejected = (500, "Matching engine run failed.") := by
  have h := commit_rejection_rethrows envRejected (some 1) (some 2)
    "execution reverted" (by decide) (by decide) (fun pr => rfl) rfl
  exact ⟨h.2.1, h.2.2.1⟩

/-- C8: an `ECONNRESET` caught at process level invokes the provider
reset and nothing else does; the re-entrancy flag makes a reset request
a no-op while a reset is pending; a fresh reset removes the contract
listeners, nulls the provider/wallet/contract triple and schedules the
fixed 10-second cooldown; and when the cooldown elapses the triple is
reconstructed as a new generation, the subscription is re-attached and
exactly one reconciliation run is triggered. -/
theorem fault_recovery_supervisor (s : SupervisorState) :
    (∀ code, code ≠ "ECONNRESET" → onUncaughtException code s = s) ∧
    onUncaughtException "ECONNRESET" s = resetProvider s ∧
    (s.isResetting = true → resetProvider s = s) ∧
    (s.isResetting = false →
      (resetProvider s).isResetting = true ∧
      (s.hasContract = true → (resetProvider s).listenersAttached = false) ∧
      (resetProvider s).hasProvider = false ∧
      (resetProvider s).hasWallet = false ∧
      (resetProvider s).hasContract = false ∧
      (resetProvider s).cooldownPending = some resetCooldownMs ∧
      (cooldownElapses (resetProvider s)).isResetting = false ∧
      (cooldownElapses (resetProvider s)).hasProvider = true ∧
      (cooldownElapses (resetProvider s)).hasWallet = true ∧
      (cooldownElapses (resetProvider s)).hasContract = true ∧
      (cooldownElapses (resetProvider s)).generation = s.generation + 1 ∧
      (cooldownElapses (resetProvider s)).listenersAttached = true ∧
      (cooldownElapses (resetProvider s)).runsTriggered = s.runsTriggered + 1) := by
  refine ⟨?_, rfl, ?_, ?_⟩
  · intro code hcode
    unfold onUncaughtException
    rw [if_neg hcode]
  · intro hr
    unfold resetProvider
    rw [if_pos hr]
  · intro hr
    have hreset : resetProvider s =
        { s with
          isResetting := true
          listenersAttached := if s.hasContract then false else s.listenersAttached
          hasProvider := false
          hasWallet := false
          hasContract := false
          cooldownPending := some resetCooldownMs } := by
      unfold resetProvider
      rw [if_neg (by simp [hr])]
    rw [hreset]
    refine ⟨rfl, ?_, rfl, rfl, rfl, rfl, ?_⟩
    · intro hc
      simp [hc]
    · unfold cooldownElapses initializeProvider attachContractListeners
      simp

/-- C8 witness: a connected, non-resetting state. -/
def supConnected : SupervisorState :=
  { isResetting := false, hasProvider := true, hasWallet := true
    hasContract := true, listenersAttached := true, cooldownPending := none
    generation := 1, runsTriggered := 1 }

/-- C8 witness: a state in which a reset is already pending. -/
def supResetting : SupervisorState :=
  { isResetting := true, hasProvider := false, hasWallet := false
    hasContract := false, listenersAttached := false
    cooldownPending := some resetCooldownMs, generation := 1
    runsTriggered := 1 }

theorem fault_recovery_supervisor_witness :
    onUncaughtException "ECONNRESET" supConnected = resetProvider supConnected ∧
    onUncaughtException "ENOTFOUND" supConnected = supConnected ∧
    resetProvider supResetting = supResetting ∧
    (resetProvider supConnected).isResetting = true ∧
    (resetProvider supConnected).listenersAttached = false ∧
    (resetProvider supConnected).hasProvider = false ∧
    (resetProvider supConnected).hasWallet = false ∧
    (resetProvider supConnected).hasContract = false ∧
    (resetProvider supConnected).cooldownPending = some 10000 ∧
    (cooldownElapses (resetProvider supConnected)).generation = 2 ∧
    (cooldownElapses (resetProvider supConnected)).listenersAttached = true ∧
    (cooldownElapses (resetProvider supConnected)).runsTriggered = 2 := by
  have hA := fault_recovery_supervisor supConnected
  have hB := fault_recovery_supervisor supResetting
  have ha1 := hA.1 "ENOTFOUND" (by decide)
  have ha2 := hA.2.1
  obtain ⟨hcons, hlist, hprov, hwall, hcontr, hcool, _, _, _, _, hgen, hla, hruns⟩ :=
    hA.2.2.2 rfl
  exact ⟨ha2, ha1, hB.2.2.1 rfl, hcons, hlist rfl,
    hprov, hwall, hcontr, hcool, hgen, hla, hruns⟩

end DlF
